import Mathlib

/-!
Shallow embedding of the image format conversion engine of `src/main.py`
(class `ImageConverter` of the ConvertBot repository, lines 140-352).

Pure PIL operations on decoded images (crop, mode conversion, pasting onto
a background) are embedded directly on a pixel-buffer model.  The two PIL
primitives whose outcome the Python code does not control are abstracted
into an `Env` record:
  * `Env.save` — `Image.save` for a given image and keyword options; it may
    succeed with a byte stream or raise after having written a prefix of
    bytes into the output buffer (both captured by `SaveOutcome`);
  * `Env.resize` — the pixel resampling of `Image.resize(..., LANCZOS)`;
    PIL guarantees the result has the requested dimensions and the same
    color mode, which `resizeImg` encodes; the sample values themselves are
    arbitrary.
Everything the Python code itself decides — format dispatch, size
selection, square cropping, mode coercion, the primary/fallback retry for
ICO, buffer handling, and result/reason reporting — is translated
line by line from the source.
-/

namespace ConvertBot

/-- One sample of a decoded image, read in its RGBA interpretation:
for grayscale modes `r = g = b` is the gray value, for palette mode the
palette lookup (with the transparency-derived alpha) is already applied. -/
structure Pix where
  r : Nat
  g : Nat
  b : Nat
  a : Nat
deriving DecidableEq

/-- PIL color modes that the converter distinguishes (`img.mode`). -/
inductive Mode where
  | RGB
  | RGBA
  | L
  | LA
  | P
  | other
deriving DecidableEq

/-- A decoded pixel buffer: dimensions, color mode, samples, and whether
`'transparency' in img.info` holds (the only piece of `img.info` the
converter reads, at line 309 of the source). -/
structure Img where
  width : Nat
  height : Nat
  mode : Mode
  px : Nat → Nat → Pix
  hasTransparencyInfo : Bool

/-- The contents of an `io.BytesIO` output buffer. -/
abbrev Buf := List Nat

/-- The keyword arguments the converter passes to `Image.save`. -/
structure SaveOpts where
  format : String
  optimize : Bool
  quality : Option Nat
  sizes : Option (List (Nat × Nat))
  bitmapFormat : Option String
  appendImages : Option (List Img)

/-- Outcome of one `Image.save` call: either it returns normally having
written `written` to the buffer, or it raises after having written a
(possibly empty) prefix `written`, with exception message `msg`. -/
inductive SaveOutcome where
  | ok (written : Buf)
  | err (written : Buf) (msg : String)

/-- The abstract PIL encoder back end. -/
structure Env where
  save : Img → SaveOpts → SaveOutcome
  resize : Img → Nat → Nat → (Nat → Nat → Pix)

/-- `img.crop((left, top, right, bottom))`: reindexes the samples and has
dimensions `right - left` by `bottom - top`; mode and info are kept. -/
def cropImg (i : Img) (left top right bottom : Nat) : Img :=
  ⟨right - left, bottom - top, i.mode, fun x y => i.px (x + left) (y + top),
   i.hasTransparencyInfo⟩

/-- `img.convert('RGBA')`: in the RGBA reading of samples this only
changes the recorded mode. -/
def convertRGBA (i : Img) : Img :=
  ⟨i.width, i.height, Mode.RGBA, i.px, i.hasTransparencyInfo⟩

/-- `img.convert('RGB')`: drops the alpha channel without compositing. -/
def convertRGB (i : Img) : Img :=
  ⟨i.width, i.height, Mode.RGB,
   fun x y => ⟨(i.px x y).r, (i.px x y).g, (i.px x y).b, 255⟩,
   i.hasTransparencyInfo⟩

/-- `img.resize((w, h), Image.Resampling.LANCZOS)`: requested dimensions,
same mode and info, resampled pixels supplied by the environment. -/
def resizeImg (e : Env) (i : Img) (w h : Nat) : Img :=
  ⟨w, h, i.mode, e.resize i w h, i.hasTransparencyInfo⟩

/-- `Image.new("RGB", (w, h), (255, 255, 255))`. -/
def whiteBg (w h : Nat) : Img :=
  ⟨w, h, Mode.RGB, fun _ _ => ⟨255, 255, 255, 255⟩, false⟩

/-- Alpha blending of a foreground sample `p` over a background sample `q`
using the alpha of `p` as the mask, as `Image.paste` with a mask does. -/
def blendOver (p q : Pix) : Pix :=
  ⟨(p.r * p.a + q.r * (255 - p.a)) / 255,
   (p.g * p.a + q.g * (255 - p.a)) / 255,
   (p.b * p.a + q.b * (255 - p.a)) / 255, 255⟩

/-- `background.paste(im, mask=alpha)` for same-sized images: every sample
is blended over the background using the alpha channel of `im`. -/
def pasteMask (bg im : Img) : Img :=
  ⟨bg.width, bg.height, bg.mode, fun x y => blendOver (im.px x y) (bg.px x y),
   bg.hasTransparencyInfo⟩

/-- `background.paste(im, mask=None)` for same-sized images: the pasted
image fully covers the background, its alpha channel is ignored. -/
def pasteNoMask (bg im : Img) : Img :=
  ⟨bg.width, bg.height, bg.mode,
   fun x y => ⟨(im.px x y).r, (im.px x y).g, (im.px x y).b, 255⟩,
   bg.hasTransparencyInfo⟩

/-! ### ICO encoder (`ImageConverter._convert_to_ico`, lines 193-321) -/

/-- Size selection of the primary ICO path (source lines 202-212). -/
def icoSizes (originalSize : Nat) : List Nat :=
  if originalSize ≥ 256 then [256]
  else if originalSize ≥ 128 then [128]
  else if originalSize ≥ 64 then [64]
  else if originalSize ≥ 32 then [32]
  else if originalSize ≥ 16 then [originalSize]
  else [16]

/-- The crop box computed at source lines 223-227 (and again at 292-296):
`left = (width - min_dimension) // 2`, `top = (height - min_dimension) // 2`,
`right = left + min_dimension`, `bottom = top + min_dimension`. -/
def cropBox (i : Img) : Nat × Nat × Nat × Nat :=
  ((i.width - min i.width i.height) / 2,
   (i.height - min i.width i.height) / 2,
   (i.width - min i.width i.height) / 2 + min i.width i.height,
   (i.height - min i.width i.height) / 2 + min i.width i.height)

/-- The center square crop `img.crop((left, top, right, bottom))`. -/
def centerSquareCrop (i : Img) : Img :=
  cropImg i (cropBox i).1 (cropBox i).2.1 (cropBox i).2.2.1 (cropBox i).2.2.2

/-- `square_img`: crop to a square only when the image is not square
(source lines 221-230 and 291-299, identical in both paths). -/
def squareOf (i : Img) : Img :=
  if i.width ≠ i.height then centerSquareCrop i else i

/-- Mode handling of the primary ICO path (source lines 237-251):
RGBA and RGB pass through, every other mode is converted to RGBA. -/
def icoModeFix (i : Img) : Img :=
  if i.mode = Mode.RGBA then i
  else if i.mode = Mode.RGB then i
  else convertRGBA i

/-- One iteration of the primary ICO loop (source lines 217-253): resize
(cropping first if not square) unless the image already has the target
dimensions, then fix the mode. -/
def icoPrepare (e : Env) (i : Img) (size : Nat) : Img :=
  icoModeFix
    (if i.width ≠ size ∨ i.height ≠ size then resizeImg e (squareOf i) size size
     else i)

/-- The `images` list built by the primary ICO path. -/
def icoPrimaryImages (e : Env) (i : Img) : List Img :=
  (icoSizes (min i.width i.height)).map (icoPrepare e i)

/-- `save_kwargs` of the primary ICO save (source lines 264-272):
`append_images` is passed only when there is more than one image. -/
def icoPrimaryOpts (sizesTuple : List (Nat × Nat)) (extra : Option (List Img)) : SaveOpts :=
  ⟨"ICO", false, none, some sizesTuple, some "bmp", extra⟩

/-- Options of the fallback ICO save (source line 315). -/
def icoFallbackOpts : SaveOpts :=
  ⟨"ICO", false, none, none, some "bmp", none⟩

/-- Result of `_convert_to_ico`: `success` carries the final contents of
the output buffer and the declared resolutions of the emitted images;
`failed` means the method returned `False` (its buffer is discarded by the
caller). -/
inductive IcoOutcome where
  | success (buf : Buf) (declared : List (Nat × Nat))
  | failed (buf : Buf)
deriving DecidableEq

/-- `resized` of the fallback path after the conditional resize
(source lines 288-305). -/
def fallbackResized (e : Env) (i : Img) : Img :=
  if (squareOf i).width ≠ min 256 (min i.width i.height) ∨
     (squareOf i).height ≠ min 256 (min i.width i.height) then
    resizeImg e (squareOf i) (min 256 (min i.width i.height)) (min 256 (min i.width i.height))
  else squareOf i

/-- The image the fallback path hands to `save` (source lines 288-313):
the conditionally resized square crop, coerced to RGBA or RGB only when
its mode is neither RGB nor RGBA. -/
def icoFallbackImage (e : Env) (i : Img) : Img :=
  if (fallbackResized e i).mode = Mode.RGB ∨ (fallbackResized e i).mode = Mode.RGBA then
    fallbackResized e i
  else if (fallbackResized e i).hasTransparencyInfo ∨ (fallbackResized e i).mode = Mode.LA ∨
          (fallbackResized e i).mode = Mode.P then
    convertRGBA (fallbackResized e i)
  else convertRGB (fallbackResized e i)

/-- The fallback ICO attempt (source lines 286-321), writing into the same
output buffer the primary attempt used. -/
def icoFallback (e : Env) (i : Img) (buf : Buf) : IcoOutcome :=
  match e.save (icoFallbackImage e i) icoFallbackOpts with
  | .ok w => .success (buf ++ w) [((icoFallbackImage e i).width, (icoFallbackImage e i).height)]
  | .err w _ => .failed (buf ++ w)

/-- `_convert_to_ico`: primary attempt, and on an exception the fallback
attempt on the same (not truncated) output buffer. -/
def convertToIco (e : Env) (i : Img) (buf : Buf) : IcoOutcome :=
  match icoPrimaryImages e i with
  | [] => .failed buf
  | first :: rest =>
    match e.save first
        (icoPrimaryOpts ((first :: rest).map fun im => (im.width, im.height))
          (if rest.length > 0 then some rest else none)) with
    | .ok w => .success (buf ++ w) ((first :: rest).map fun im => (im.width, im.height))
    | .err w _ => icoFallback e i (buf ++ w)

/-! ### JPEG and PDF encoders (source lines 323-352) -/

/-- The flattening step of `_convert_to_jpeg` (source lines 328-334). -/
def jpegPreprocess (i : Img) : Img :=
  if i.mode = Mode.RGBA ∨ i.mode = Mode.LA ∨ i.mode = Mode.P then
    if (if i.mode = Mode.P then convertRGBA i else i).mode = Mode.RGBA then
      pasteMask (whiteBg i.width i.height) (if i.mode = Mode.P then convertRGBA i else i)
    else
      pasteNoMask (whiteBg i.width i.height) (if i.mode = Mode.P then convertRGBA i else i)
  else i

/-- Options of the JPEG save (source line 336). -/
def jpegOpts (pilFormat : String) : SaveOpts :=
  ⟨pilFormat, true, some 90, none, none, none⟩

/-- `_convert_to_jpeg`: flatten, then one save; an exception yields `False`. -/
def convertToJpeg (e : Env) (i : Img) (buf : Buf) (pilFormat : String) : Bool × Buf :=
  match e.save (jpegPreprocess i) (jpegOpts pilFormat) with
  | .ok w => (true, buf ++ w)
  | .err w _ => (false, buf ++ w)

/-- Options of the PDF save (source line 348). -/
def pdfOpts : SaveOpts :=
  ⟨"PDF", true, none, none, none, none⟩

/-- `_convert_to_pdf`: coerce to RGB if needed, then one save. -/
def convertToPdf (e : Env) (i : Img) (buf : Buf) : Bool × Buf :=
  match e.save (if i.mode ≠ Mode.RGB then convertRGB i else i) pdfOpts with
  | .ok w => (true, buf ++ w)
  | .err w _ => (false, buf ++ w)

/-! ### Orchestrator (`ImageConverter.convert_to_format`, lines 157-191) -/

/-- `ImageConverter.FORMAT_MAP` (source lines 143-155): format identifier
to `(pil_format, extension)`. -/
def formatLookup (f : String) : Option (String × String) :=
  if f = "PNG" then some ("PNG", "png")
  else if f = "JPEG" then some ("JPEG", "jpg")
  else if f = "WEBP" then some ("WEBP", "webp")
  else if f = "BMP" then some ("BMP", "bmp")
  else if f = "TIF" then some ("TIFF", "tif")
  else if f = "TIFF" then some ("TIFF", "tiff")
  else if f = "GIF" then some ("GIF", "gif")
  else if f = "ICO" then some ("ICO", "ico")
  else if f = "PDF" then some ("PDF", "pdf")
  else if f = "JP2" then some ("JPEG2000", "jp2")
  else if f = "APNG" then some ("PNG", "apng")
  else none

/-- Options of the generic save path (source line 180). -/
def genericOpts (pilFormat : String) : SaveOpts :=
  ⟨pilFormat, true, none, none, none, none⟩

/-- `convert_to_format`: the `(success, buffer, error_message)` triple.
Failure always returns a fresh empty buffer (source lines 167, 184, 191);
a save exception on the generic path is caught by the surrounding
`try`/`except` of the orchestrator. -/
def convertToFormat (e : Env) (i : Img) (formatName : String) : Bool × Buf × String :=
  match formatLookup formatName with
  | none => (false, [], "Неподдерживаемый формат: " ++ formatName)
  | some (pilFormat, _ext) =>
    if formatName = "ICO" then
      match convertToIco e i [] with
      | .success b _ => (true, b, "")
      | .failed _ => (false, [], "Не удалось конвертировать в " ++ formatName)
    else if formatName = "JPEG" then
      match convertToJpeg e i [] pilFormat with
      | (true, b) => (true, b, "")
      | (false, _) => (false, [], "Не удалось конвертировать в " ++ formatName)
    else if formatName = "PDF" then
      match convertToPdf e i [] with
      | (true, b) => (true, b, "")
      | (false, _) => (false, [], "Не удалось конвертировать в " ++ formatName)
    else
      match e.save i (genericOpts pilFormat) with
      | .ok w => (true, w, "")
      | .err _ m => (false, [], "Ошибка конвертации: " ++ m)

/-- The closed set of supported format identifiers (`SUPPORTED_FORMATS`,
source lines 41-44, equal to the key set of `FORMAT_MAP`). -/
def supportedFormats : List String :=
  ["PNG", "JPEG", "WEBP", "BMP", "TIF", "TIFF", "GIF", "ICO", "PDF", "JP2", "APNG"]

/-! ### Claim-side definitions (written from the words of the spec, for
comparison with the code-side definitions above) -/

/-- Spec-side resolution selection (claim C2): 256 if base ≥ 256, else 128
if base ≥ 128, else 64 if base ≥ 64, else 32 if base ≥ 32, else
`max base 16`. -/
def specIconSize (base : Nat) : Nat :=
  if base ≥ 256 then 256
  else if base ≥ 128 then 128
  else if base ≥ 64 then 64
  else if base ≥ 32 then 32
  else max base 16

/-- Spec-side fallback mode coercion exactly as claim C4 words it:
RGBA if the source mode is LA or Palette or has transparency metadata,
else RGB. -/
def specFallbackMode (m : Mode) (transp : Bool) : Mode :=
  if m = Mode.LA ∨ m = Mode.P ∨ transp = true then Mode.RGBA else Mode.RGB

/-- Spec-side JPEG flattening exactly as claim C6 words it: modes carrying
alpha or palette-based composite onto opaque white using the alpha (or
palette transparency) as the blend mask; palette without transparency is
flattened to RGB without compositing. -/
def specJpegFlatten (i : Img) : Img :=
  if i.mode = Mode.RGBA ∨ i.mode = Mode.LA then pasteMask (whiteBg i.width i.height) i
  else if i.mode = Mode.P then
    if i.hasTransparencyInfo then pasteMask (whiteBg i.width i.height) (convertRGBA i)
    else convertRGB i
  else i

/-! ### Concrete inputs and environments used by witnesses and
counterexamples -/

/-- A buffer of the given dimensions and mode with constant opaque black
samples. -/
def mkImg (w h : Nat) (m : Mode) (t : Bool) : Img :=
  ⟨w, h, m, fun _ _ => ⟨0, 0, 0, 255⟩, t⟩

/-- An encoder that always succeeds, writing the byte `1`. -/
def envOk : Env :=
  ⟨fun _ _ => .ok [1], fun i _ _ => i.px⟩

/-- An encoder where every save raises before writing anything. -/
def envAllFail : Env :=
  ⟨fun _ _ => .err [] "boom", fun i _ _ => i.px⟩

/-- An encoder where the primary ICO save (recognizable by its `sizes`
keyword) raises without writing, and every other save succeeds. -/
def envPrimaryFailsClean : Env :=
  ⟨fun _ o => if o.sizes.isSome then .err [] "primary failed" else .ok [5],
   fun i _ _ => i.px⟩

/-- An encoder where the primary ICO save raises after writing the byte
`7`, and every other save succeeds writing the byte `9`. -/
def envPrimaryFailsDirty : Env :=
  ⟨fun _ o => if o.sizes.isSome then .err [7] "primary failed" else .ok [9],
   fun i _ _ => i.px⟩

/-- A one-pixel grayscale-with-alpha image whose only pixel is fully
transparent black. -/
def laTransparent : Img :=
  ⟨1, 1, Mode.LA, fun _ _ => ⟨0, 0, 0, 0⟩, false⟩

/-! ### Helper lemmas -/

theorem string_append_ne_empty (s t : String) (h : s.data ≠ []) : s ++ t ≠ "" := by
  intro he
  apply h
  have h2 : (s ++ t).data = ([] : List Char) := by rw [he]
  rw [String.data_append] at h2
  exact (List.append_eq_nil.mp h2).1

theorem icoSizes_eq (b : Nat) : icoSizes b = [specIconSize b] := by
  unfold icoSizes specIconSize
  split_ifs <;> simp <;> omega

theorem specIconSize_bounds (b : Nat) : 16 ≤ specIconSize b ∧ specIconSize b ≤ 256 := by
  unfold specIconSize
  split_ifs <;> omega

theorem centerSquareCrop_width (i : Img) : (centerSquareCrop i).width = min i.width i.height := by
  simp [centerSquareCrop, cropImg, cropBox]

theorem centerSquareCrop_height (i : Img) : (centerSquareCrop i).height = min i.width i.height := by
  simp [centerSquareCrop, cropImg, cropBox]

theorem squareOf_width (i : Img) : (squareOf i).width = min i.width i.height := by
  unfold squareOf
  split_ifs with h
  · exact centerSquareCrop_width i
  · push_neg at h
    omega

theorem squareOf_height (i : Img) : (squareOf i).height = min i.width i.height := by
  unfold squareOf
  split_ifs with h
  · exact centerSquareCrop_height i
  · push_neg at h
    omega

theorem squareOf_mode (i : Img) : (squareOf i).mode = i.mode := by
  unfold squareOf centerSquareCrop cropImg
  split_ifs <;> rfl

theorem squareOf_transp (i : Img) : (squareOf i).hasTransparencyInfo = i.hasTransparencyInfo := by
  unfold squareOf centerSquareCrop cropImg
  split_ifs <;> rfl

theorem icoModeFix_width (i : Img) : (icoModeFix i).width = i.width := by
  unfold icoModeFix convertRGBA
  split_ifs <;> rfl

theorem icoModeFix_height (i : Img) : (icoModeFix i).height = i.height := by
  unfold icoModeFix convertRGBA
  split_ifs <;> rfl

theorem icoPrepare_width (e : Env) (i : Img) (s : Nat) : (icoPrepare e i s).width = s := by
  unfold icoPrepare
  rw [icoModeFix_width]
  split_ifs with h
  · rfl
  · push_neg at h
    exact h.1

theorem icoPrepare_height (e : Env) (i : Img) (s : Nat) : (icoPrepare e i s).height = s := by
  unfold icoPrepare
  rw [icoModeFix_height]
  split_ifs with h
  · rfl
  · push_neg at h
    exact h.2

theorem fallbackResized_width (e : Env) (i : Img) :
    (fallbackResized e i).width = min 256 (min i.width i.height) := by
  unfold fallbackResized
  split_ifs with h
  · rfl
  · push_neg at h
    exact h.1

theorem fallbackResized_height (e : Env) (i : Img) :
    (fallbackResized e i).height = min 256 (min i.width i.height) := by
  unfold fallbackResized
  split_ifs with h
  · rfl
  · push_neg at h
    exact h.2

theorem fallbackResized_mode (e : Env) (i : Img) : (fallbackResized e i).mode = i.mode := by
  unfold fallbackResized
  split_ifs <;> simp [resizeImg, squareOf_mode]

theorem fallbackResized_transp (e : Env) (i : Img) :
    (fallbackResized e i).hasTransparencyInfo = i.hasTransparencyInfo := by
  unfold fallbackResized
  split_ifs <;> simp [resizeImg, squareOf_transp]

theorem icoFallbackImage_width (e : Env) (i : Img) :
    (icoFallbackImage e i).width = min 256 (min i.width i.height) := by
  unfold icoFallbackImage
  split_ifs <;> simp [convertRGBA, convertRGB, fallbackResized_width]

theorem icoFallbackImage_height (e : Env) (i : Img) :
    (icoFallbackImage e i).height = min 256 (min i.width i.height) := by
  unfold icoFallbackImage
  split_ifs <;> simp [convertRGBA, convertRGB, fallbackResized_height]

theorem icoFallbackImage_mode (e : Env) (i : Img) :
    (icoFallbackImage e i).mode =
      (if i.mode = Mode.RGB ∨ i.mode = Mode.RGBA then i.mode
       else if i.hasTransparencyInfo = true ∨ i.mode = Mode.LA ∨ i.mode = Mode.P then Mode.RGBA
       else Mode.RGB) := by
  unfold icoFallbackImage
  simp only [fallbackResized_mode, fallbackResized_transp]
  split_ifs <;> simp [convertRGBA, convertRGB, fallbackResized_mode]

theorem icoPrimaryImages_eq (e : Env) (i : Img) :
    icoPrimaryImages e i = [icoPrepare e i (specIconSize (min i.width i.height))] := by
  unfold icoPrimaryImages
  rw [icoSizes_eq]
  rfl

theorem convertToIco_eq (e : Env) (i : Img) (buf : Buf) :
    convertToIco e i buf =
      (match e.save (icoPrepare e i (specIconSize (min i.width i.height)))
          (icoPrimaryOpts
            [(specIconSize (min i.width i.height), specIconSize (min i.width i.height))] none) with
       | .ok w =>
           .success (buf ++ w)
             [(specIconSize (min i.width i.height), specIconSize (min i.width i.height))]
       | .err w _ => icoFallback e i (buf ++ w)) := by
  unfold convertToIco
  rw [icoPrimaryImages_eq]
  simp only [List.map_cons, List.map_nil, icoPrepare_width, icoPrepare_height]
  rfl

theorem icoFallback_eq (e : Env) (i : Img) (buf : Buf) :
    icoFallback e i buf =
      (match e.save (icoFallbackImage e i) icoFallbackOpts with
       | .ok w =>
           .success (buf ++ w)
             [(min 256 (min i.width i.height), min 256 (min i.width i.height))]
       | .err w _ => .failed (buf ++ w)) := by
  unfold icoFallback
  rw [icoFallbackImage_width, icoFallbackImage_height]

theorem convertToFormat_shape (e : Env) (i : Img) (f : String) :
    ((convertToFormat e i f).1 = true ∧ (convertToFormat e i f).2.2 = "") ∨
    ((convertToFormat e i f).1 = false ∧ (convertToFormat e i f).2.2 ≠ "") := by
  unfold convertToFormat
  cases hl : formatLookup f with
  | none =>
    exact Or.inr ⟨rfl, string_append_ne_empty _ _ (by decide)⟩
  | some pe =>
    obtain ⟨pil, ext⟩ := pe
    dsimp only
    split_ifs with h1 h2 h3
    · cases hio : convertToIco e i [] with
      | success b d => exact Or.inl ⟨rfl, rfl⟩
      | failed b => exact Or.inr ⟨rfl, string_append_ne_empty _ _ (by decide)⟩
    · rcases hj : convertToJpeg e i [] pil with ⟨s, b⟩
      cases s
      · exact Or.inr ⟨rfl, string_append_ne_empty _ _ (by decide)⟩
      · exact Or.inl ⟨rfl, rfl⟩
    · rcases hp : convertToPdf e i [] with ⟨s, b⟩
      cases s
      · exact Or.inr ⟨rfl, string_append_ne_empty _ _ (by decide)⟩
      · exact Or.inl ⟨rfl, rfl⟩
    · cases hs : e.save i (genericOpts pil) with
      | ok w => exact Or.inl ⟨rfl, rfl⟩
      | err w m => exact Or.inr ⟨rfl, string_append_ne_empty _ _ (by decide)⟩

/-- C1: for every encoder behaviour, pixel buffer and requested format
identifier, `convert_to_format` returns a result — success with an empty
reason or failure (success = false) with a nonempty reason string — and a
batch of N requested formats yields exactly N results, never fewer. -/
theorem c1_convert_always_returns (e : Env) (i : Img) (fmts : List String) :
    (fmts.map (convertToFormat e i)).length = fmts.length ∧
    ∀ f : String,
      ((convertToFormat e i f).1 = true ∧ (convertToFormat e i f).2.2 = "") ∨
      ((convertToFormat e i f).1 = false ∧ (convertToFormat e i f).2.2 ≠ "") :=
  ⟨by simp, fun f => convertToFormat_shape e i f⟩

/-- C2: the primary ICO encoder selects exactly one target resolution by
descending threshold — 256 if base ≥ 256, else 128 if base ≥ 128, else 64
if base ≥ 64, else 32 if base ≥ 32, else `max base 16` — and the single
prepared icon image has exactly that resolution; in particular a 500×500
input selects 256, a 100×150 input selects 64 and a 10×10 input selects
16. -/
theorem c2_ico_resolution_selection :
    (∀ base : Nat, icoSizes base = [specIconSize base]) ∧
    (∀ (e : Env) (i : Img),
      (icoPrimaryImages e i).map (fun im => (im.width, im.height)) =
        [(specIconSize (min i.width i.height), specIconSize (min i.width i.height))]) ∧
    icoSizes (min 500 500) = [256] ∧
    icoSizes (min 100 150) = [64] ∧
    icoSizes (min 10 10) = [16] := by
  refine ⟨icoSizes_eq, ?_, by decide, by decide, by decide⟩
  intro e i
  rw [icoPrimaryImages_eq]
  simp [icoPrepare_width, icoPrepare_height]

/-- C10: converting to APNG takes exactly the same generic path with PIL
format "PNG" as converting to PNG and returns the identical result triple
(so the emitted bytes are a static PNG stream); the two identifiers differ
only in the mapped filename extension, apng versus png. -/
theorem c10_apng_same_as_png (e : Env) (i : Img) :
    convertToFormat e i "APNG" = convertToFormat e i "PNG" ∧
    formatLookup "APNG" = some ("PNG", "apng") ∧
    formatLookup "PNG" = some ("PNG", "png") :=
  ⟨rfl, rfl, rfl⟩

/-- C8: for every identifier outside the closed supported set the
converter fails with the unsupported-format reason and an empty buffer,
and the result does not depend on the pixel buffer at all (the buffer is
neither read nor modified). -/
theorem c8_unsupported_format (e : Env) (i j : Img) (f : String)
    (h : f ∉ supportedFormats) :
    convertToFormat e i f = (false, [], "Неподдерживаемый формат: " ++ f) ∧
    convertToFormat e i f = convertToFormat e j f := by
  have hne : ∀ s, s ∈ supportedFormats → f ≠ s := fun s hs hf => h (by rw [hf]; exact hs)
  have hl : formatLookup f = none := by
    unfold formatLookup
    rw [if_neg (hne "PNG" (by decide)), if_neg (hne "JPEG" (by decide)),
        if_neg (hne "WEBP" (by decide)), if_neg (hne "BMP" (by decide)),
        if_neg (hne "TIF" (by decide)), if_neg (hne "TIFF" (by decide)),
        if_neg (hne "GIF" (by decide)), if_neg (hne "ICO" (by decide)),
        if_neg (hne "PDF" (by decide)), if_neg (hne "JP2" (by decide)),
        if_neg (hne "APNG" (by decide))]
  have key : ∀ k : Img, convertToFormat e k f = (false, [], "Неподдерживаемый формат: " ++ f) := by
    intro k
    unfold convertToFormat
    rw [hl]
  exact ⟨key i, by rw [key i, key j]⟩

/-- C8 witness: the concrete identifier XYZ fails as unsupported, with a
result independent of the buffer. -/
theorem c8_unsupported_format_witness :
    convertToFormat envOk (mkImg 3 3 Mode.RGB false) "XYZ" =
      (false, [], "Неподдерживаемый формат: " ++ "XYZ") ∧
    convertToFormat envOk (mkImg 3 3 Mode.RGB false) "XYZ" =
      convertToFormat envOk (mkImg 5 5 Mode.RGBA true) "XYZ" :=
  c8_unsupported_format envOk (mkImg 3 3 Mode.RGB false) (mkImg 5 5 Mode.RGBA true) "XYZ"
    (by decide)

/-- C9: for each of the eight formats without special constraints the
converter makes a single save attempt on the input buffer itself — no
resizing, cropping or mode change — with the mapped PIL format and
`optimize`; a successful encode returns exactly its bytes, and a codec
rejection is reported as a failure immediately, with no retry. -/
theorem c9_generic_direct_encode (e : Env) (i : Img) (f : String)
    (hmem : f ∈ ["PNG", "WEBP", "BMP", "TIF", "TIFF", "GIF", "JP2", "APNG"]) :
    ∀ pil ext, formatLookup f = some (pil, ext) →
      (∀ w, e.save i (genericOpts pil) = .ok w → convertToFormat e i f = (true, w, "")) ∧
      (∀ pw m, e.save i (genericOpts pil) = .err pw m →
        convertToFormat e i f = (false, [], "Ошибка конвертации: " ++ m)) := by
  fin_cases hmem <;>
    (intro pil ext hl
     simp [formatLookup] at hl
     obtain ⟨rfl, rfl⟩ := hl
     refine ⟨fun w hw => ?_, fun pw m hm => ?_⟩
     · simp [convertToFormat, formatLookup, hw]
     · simp [convertToFormat, formatLookup, hm])

/-- C9 witness: a PNG encode through an always-succeeding encoder returns
exactly the encoder's bytes. -/
theorem c9_generic_direct_encode_witness :
    convertToFormat envOk (mkImg 3 3 Mode.RGB false) "PNG" = (true, [1], "") := by
  have h := c9_generic_direct_encode envOk (mkImg 3 3 Mode.RGB false) "PNG" (by decide)
  exact (h "PNG" "png" rfl).1 [1] rfl

/-- C5 counterexample: on a 401×300 input the center crop removes 50
pixels from the left of the width axis but 51 from the right, so the crop
is not symmetric on both sides as the claim states. -/
theorem c5_center_crop_counterexample :
    cropBox (mkImg 401 300 Mode.RGB false) = (50, 0, 350, 300) ∧
    (mkImg 401 300 Mode.RGB false).width - 350 = 51 ∧ (50 : Nat) ≠ 51 := by
  decide

/-- C5 amended: the icon encoder center-crops every non-square input to a
square of side base = min(width, height) before resizing; the crop offset
on each axis is (dim − base) / 2 with integer division, and the opposite
side loses the remaining (dim − base) − (dim − base) / 2 pixels, so the
two sides differ by at most one pixel (equal exactly when dim − base is
even); a 400×300 input is cropped with offset 50 on the width axis and 0
on the height axis. -/
theorem c5_center_crop_amended (i : Img) :
    cropBox i = ((i.width - min i.width i.height) / 2,
                 (i.height - min i.width i.height) / 2,
                 (i.width - min i.width i.height) / 2 + min i.width i.height,
                 (i.height - min i.width i.height) / 2 + min i.width i.height) ∧
    (centerSquareCrop i).width = min i.width i.height ∧
    (centerSquareCrop i).height = min i.width i.height ∧
    (∀ x y, (centerSquareCrop i).px x y =
      i.px (x + (i.width - min i.width i.height) / 2)
           (y + (i.height - min i.width i.height) / 2)) ∧
    (i.width - min i.width i.height) / 2 ≤
      i.width - ((i.width - min i.width i.height) / 2 + min i.width i.height) ∧
    i.width - ((i.width - min i.width i.height) / 2 + min i.width i.height) ≤
      (i.width - min i.width i.height) / 2 + 1 ∧
    cropBox (mkImg 400 300 Mode.RGB false) = (50, 0, 350, 300) ∧
    ∀ (e : Env) (s : Nat), i.width ≠ i.height →
      icoPrepare e i s = icoModeFix (resizeImg e (centerSquareCrop i) s s) := by
  refine ⟨rfl, centerSquareCrop_width i, centerSquareCrop_height i, fun x y => rfl,
    ?_, ?_, by decide, ?_⟩
  · omega
  · omega
  · intro e s hne
    have hcond : i.width ≠ s ∨ i.height ≠ s := by
      rcases eq_or_ne i.width s with hws | hws
      · exact Or.inr fun hh => hne (by rw [hws, hh])
      · exact Or.inl hws
    unfold icoPrepare squareOf
    rw [if_pos hcond, if_pos hne]

/-- C5 witness: the amended facts at the concrete 400×300 input of the
claim, with the crop applied before a resize to 64. -/
theorem c5_center_crop_amended_witness :
    icoPrepare envOk (mkImg 400 300 Mode.RGB false) 64 =
      icoModeFix (resizeImg envOk (centerSquareCrop (mkImg 400 300 Mode.RGB false)) 64 64) ∧
    cropBox (mkImg 400 300 Mode.RGB false) = (50, 0, 350, 300) := by
  have h := c5_center_crop_amended (mkImg 400 300 Mode.RGB false)
  exact ⟨h.2.2.2.2.2.2.2 envOk 64 (by decide), h.2.2.2.2.2.2.1⟩

/-- C4 counterexample: for an RGBA source without transparency metadata
the fallback keeps mode RGBA, whereas the claim's coercion rule (RGBA
exactly when the source mode is LA or Palette or has transparency
metadata, else RGB) demands RGB. -/
theorem c4_fallback_mode_counterexample :
    (icoFallbackImage envOk (mkImg 300 300 Mode.RGBA false)).mode = Mode.RGBA ∧
    specFallbackMode Mode.RGBA false = Mode.RGB ∧
    Mode.RGBA ≠ Mode.RGB := by
  decide

/-- C4 amended: if the primary ICO save raises, the encoder retries
exactly once with the simplified fallback: its target size is
min(256, base), it reuses the same center square-crop rule, it resizes
only if the crop is not already square of that size, and its mode
coercion leaves RGB and RGBA sources unchanged and otherwise converts to
RGBA when the source mode is LA or Palette or has transparency metadata
and to RGB otherwise; if the fallback save also raises, the overall
result is a failure and there is no further retry. -/
theorem c4_ico_fallback_amended (e : Env) (i : Img) (buf : Buf) :
    (icoFallbackImage e i).width = min 256 (min i.width i.height) ∧
    (icoFallbackImage e i).height = min 256 (min i.width i.height) ∧
    (icoFallbackImage e i).mode =
      (if i.mode = Mode.RGB ∨ i.mode = Mode.RGBA then i.mode
       else if i.hasTransparencyInfo = true ∨ i.mode = Mode.LA ∨ i.mode = Mode.P then Mode.RGBA
       else Mode.RGB) ∧
    ((squareOf i).width = min 256 (min i.width i.height) ∧
     (squareOf i).height = min 256 (min i.width i.height) →
      fallbackResized e i = squareOf i) ∧
    (∀ pw m,
      e.save (icoPrepare e i (specIconSize (min i.width i.height)))
          (icoPrimaryOpts
            [(specIconSize (min i.width i.height), specIconSize (min i.width i.height))]
            none) = .err pw m →
      convertToIco e i buf = icoFallback e i (buf ++ pw)) ∧
    (∀ w, e.save (icoFallbackImage e i) icoFallbackOpts = .ok w →
      icoFallback e i buf =
        .success (buf ++ w) [(min 256 (min i.width i.height), min 256 (min i.width i.height))]) ∧
    (∀ pw m, e.save (icoFallbackImage e i) icoFallbackOpts = .err pw m →
      icoFallback e i buf = .failed (buf ++ pw)) ∧
    (∀ b, convertToIco e i [] = .failed b →
      convertToFormat e i "ICO" = (false, [], "Не удалось конвертировать в ICO")) := by
  refine ⟨icoFallbackImage_width e i, icoFallbackImage_height e i, icoFallbackImage_mode e i,
    ?_, ?_, ?_, ?_, ?_⟩
  · intro hsq
    unfold fallbackResized
    rw [if_neg]
    intro hc
    rcases hc with hc | hc
    · exact hc hsq.1
    · exact hc hsq.2
  · intro pw m hs
    rw [convertToIco_eq, hs]
  · intro w hs
    rw [icoFallback_eq, hs]
  · intro pw m hs
    rw [icoFallback_eq, hs]
  · intro b hb
    have hred : convertToFormat e i "ICO" =
        (match convertToIco e i [] with
         | .success bb _ => (true, bb, "")
         | .failed _ => (false, [], "Не удалось конвертировать в " ++ "ICO")) := rfl
    rw [hred, hb]
    rfl

/-- C4 witness: with an encoder whose saves always raise before writing,
the fallback image of a 20×20 RGB source has the fallback target size and
the fallback attempt fails, yielding the failed outcome. -/
theorem c4_ico_fallback_amended_witness :
    (icoFallbackImage envAllFail (mkImg 20 20 Mode.RGB false)).width = min 256 (min 20 20) ∧
    icoFallback envAllFail (mkImg 20 20 Mode.RGB false) [] = .failed ([] ++ []) := by
  have h := c4_ico_fallback_amended envAllFail (mkImg 20 20 Mode.RGB false) []
  exact ⟨h.1, h.2.2.2.2.2.2.1 [] "boom" rfl⟩

/-- C3 counterexample: on a 10×10 source whose primary ICO save raises,
the fallback succeeds and the icon encoder emits the declared resolution
10×10, which is below 16. -/
theorem c3_resolution_counterexample :
    convertToIco envPrimaryFailsClean (mkImg 10 10 Mode.RGB false) [] =
      .success [5] [(10, 10)] ∧ (10 : Nat) < 16 :=
  ⟨rfl, by decide⟩

/-- C3 amended: every resolution the icon encoder declares is square and
at most 256, and is at least 16 whenever the smaller source dimension
base is at least 16; the primary path always emits at least 16, but the
fallback emits min(256, base), which falls below 16 exactly when base
does. -/
theorem c3_resolution_bounds_amended (e : Env) (i : Img) (buf b : Buf)
    (ds : List (Nat × Nat)) (h : convertToIco e i buf = .success b ds) :
    ∀ p ∈ ds, p.1 = p.2 ∧ p.1 ≤ 256 ∧ min 16 (min i.width i.height) ≤ p.1 ∧
      (16 ≤ min i.width i.height → 16 ≤ p.1) := by
  rw [convertToIco_eq] at h
  cases hs : e.save (icoPrepare e i (specIconSize (min i.width i.height)))
      (icoPrimaryOpts
        [(specIconSize (min i.width i.height), specIconSize (min i.width i.height))]
        none) with
  | ok w =>
    rw [hs] at h
    injection h with h1 h2
    subst h2
    intro p hp
    simp only [List.mem_singleton] at hp
    subst hp
    obtain ⟨hb1, hb2⟩ := specIconSize_bounds (min i.width i.height)
    refine ⟨rfl, ?_, ?_, fun _ => ?_⟩ <;> (dsimp only; omega)
  | err w m =>
    rw [hs] at h
    dsimp only at h
    rw [icoFallback_eq] at h
    cases hf : e.save (icoFallbackImage e i) icoFallbackOpts with
    | ok w2 =>
      rw [hf] at h
      injection h with h1 h2
      subst h2
      intro p hp
      simp only [List.mem_singleton] at hp
      subst hp
      refine ⟨rfl, ?_, ?_, fun _ => ?_⟩ <;> (dsimp only; omega)
    | err w2 m2 =>
      rw [hf] at h
      exact IcoOutcome.noConfusion h

/-- C3 witness: the amended bounds applied to a successful primary encode
of a 10×10 source, which emits resolution 16×16. -/
theorem c3_resolution_bounds_amended_witness :
    (16 : Nat) = 16 ∧ (16 : Nat) ≤ 256 ∧ min 16 (min 10 10) ≤ 16 ∧
      (16 ≤ min 10 10 → (16 : Nat) ≤ 16) := by
  have h := c3_resolution_bounds_amended envOk (mkImg 10 10 Mode.RGB false) [] [1]
      [(16, 16)] rfl
  exact h (16, 16) (by decide)

/-- C7 counterexample: with a primary ICO save that writes the byte 7 and
then raises, and a fallback save that succeeds writing the byte 9, the
converter returns the stream 7,9 — the residue of the failed primary
attempt followed by the fallback's output — which is not the output of
the one successful encode. -/
theorem c7_atomicity_counterexample :
    convertToFormat envPrimaryFailsDirty (mkImg 300 300 Mode.RGB false) "ICO" =
      (true, [7, 9], "") ∧
    envPrimaryFailsDirty.save
        (icoFallbackImage envPrimaryFailsDirty (mkImg 300 300 Mode.RGB false))
        icoFallbackOpts = .ok [9] ∧
    ([7, 9] : Buf) ≠ [9] :=
  ⟨rfl, rfl, by decide⟩

/-- C7 amended: every failing conversion returns an empty buffer, and a
generic-path success returns exactly the bytes of its single encode; but
an ICO success reached through the fallback returns the bytes the failed
primary attempt had already written followed by the fallback encode's
bytes, because the output buffer is not truncated between the two
attempts. -/
theorem c7_atomicity_amended (e : Env) (i : Img) :
    (∀ f, (convertToFormat e i f).1 = false → (convertToFormat e i f).2.1 = []) ∧
    (∀ f pil ext w, formatLookup f = some (pil, ext) →
      f ≠ "ICO" → f ≠ "JPEG" → f ≠ "PDF" →
      e.save i (genericOpts pil) = .ok w → convertToFormat e i f = (true, w, "")) ∧
    (∀ w, e.save (jpegPreprocess i) (jpegOpts "JPEG") = .ok w →
      convertToFormat e i "JPEG" = (true, w, "")) ∧
    (∀ w, e.save (if i.mode ≠ Mode.RGB then convertRGB i else i) pdfOpts = .ok w →
      convertToFormat e i "PDF" = (true, w, "")) ∧
    (∀ pw m w2,
      e.save (icoPrepare e i (specIconSize (min i.width i.height)))
          (icoPrimaryOpts
            [(specIconSize (min i.width i.height), specIconSize (min i.width i.height))]
            none) = .err pw m →
      e.save (icoFallbackImage e i) icoFallbackOpts = .ok w2 →
      convertToFormat e i "ICO" = (true, pw ++ w2, "")) := by
  refine ⟨?_, ?_, ?_, ?_, ?_⟩
  · intro f
    unfold convertToFormat
    cases hl : formatLookup f with
    | none => intro _; rfl
    | some pe =>
      obtain ⟨pil, ext⟩ := pe
      dsimp only
      split_ifs with h1 h2 h3
      · cases hio : convertToIco e i [] with
        | success bb d => exact fun hfalse => Bool.noConfusion hfalse
        | failed bb => intro _; rfl
      · rcases hj : convertToJpeg e i [] pil with ⟨s, bb⟩
        cases s
        · intro _; rfl
        · exact fun hfalse => Bool.noConfusion hfalse
      · rcases hp : convertToPdf e i [] with ⟨s, bb⟩
        cases s
        · intro _; rfl
        · exact fun hfalse => Bool.noConfusion hfalse
      · cases hsv : e.save i (genericOpts pil) with
        | ok w => exact fun hfalse => Bool.noConfusion hfalse
        | err w m => intro _; rfl
  · intro f pil ext w hl h1 h2 h3 hw
    unfold convertToFormat
    rw [hl]
    dsimp only
    rw [if_neg h1, if_neg h2, if_neg h3, hw]
  · intro w hw
    have hred : convertToFormat e i "JPEG" =
        (match convertToJpeg e i [] "JPEG" with
         | (true, bb) => (true, bb, "")
         | (false, _) => (false, [], "Не удалось конвертировать в " ++ "JPEG")) := rfl
    rw [hred]
    unfold convertToJpeg
    rw [hw]
    rfl
  · intro w hw
    have hred : convertToFormat e i "PDF" =
        (match convertToPdf e i [] with
         | (true, bb) => (true, bb, "")
         | (false, _) => (false, [], "Не удалось конвертировать в " ++ "PDF")) := rfl
    rw [hred]
    unfold convertToPdf
    rw [hw]
    rfl
  · intro pw m w2 hp hf
    have hred : convertToFormat e i "ICO" =
        (match convertToIco e i [] with
         | .success bb _ => (true, bb, "")
         | .failed _ => (false, [], "Не удалось конвертировать в " ++ "ICO")) := rfl
    rw [hred, convertToIco_eq, hp]
    dsimp only
    rw [icoFallback_eq, hf]
    rfl

/-- C7 witness: a failing PNG encode returns an empty buffer, a
successful JPEG encode returns exactly the encoder's bytes, and the
concrete residue scenario returns the primary residue byte followed by
the fallback byte. -/
theorem c7_atomicity_amended_witness :
    (convertToFormat envAllFail (mkImg 3 3 Mode.RGB false) "PNG").2.1 = [] ∧
    convertToFormat envOk (mkImg 3 3 Mode.RGB false) "JPEG" = (true, [1], "") ∧
    convertToFormat envPrimaryFailsDirty (mkImg 300 300 Mode.RGB false) "ICO" =
      (true, [7] ++ [9], "") := by
  have h := c7_atomicity_amended envAllFail (mkImg 3 3 Mode.RGB false)
  have hj := c7_atomicity_amended envOk (mkImg 3 3 Mode.RGB false)
  have h2 := c7_atomicity_amended envPrimaryFailsDirty (mkImg 300 300 Mode.RGB false)
  exact ⟨h.1 "PNG" rfl, hj.2.2.1 [1] rfl, h2.2.2.2.2 [7] "primary failed" [9] rfl rfl⟩

/-- C6: the code drops the alpha channel of a grayscale-with-alpha (LA)
input: at a fully transparent LA pixel the code's flattening pastes the
gray value onto the white background without a mask and yields opaque
black, while the claimed compositing onto white with the alpha channel as
the blend mask yields white. -/
theorem c6_la_alpha_dropped :
    (jpegPreprocess laTransparent).px 0 0 = ⟨0, 0, 0, 255⟩ ∧
    (specJpegFlatten laTransparent).px 0 0 = ⟨255, 255, 255, 255⟩ ∧
    (⟨0, 0, 0, 255⟩ : Pix) ≠ ⟨255, 255, 255, 255⟩ := by
  decide

end ConvertBot
